import Mathlib

set_option maxRecDepth 100000

/-!
Verification model of the embedded GraphQL server defined in
src/test_postgres_backend.py (the `GraphQLHandler` class, lines 208-292 of
that file, written out as the `graphql_server_code` string).  The handler is
modelled shallowly: JSON values are an inductive type, the `json.loads`
library function and the `subprocess.run` backend invocation are oracle
parameters, and a Python exception escaping a region of code is an
`Except.error` carrying the exception text.
-/

/-- A JSON value, as produced by Python `json.loads`. -/
inductive Json where
  | null
  | bool (b : Bool)
  | num (n : Int)
  | str (s : String)
  | arr (xs : List Json)
  | obj (kvs : List (String × Json))

/-- The characters stripped by Python `str.strip()` with no argument. -/
def isPyWs (c : Char) : Bool :=
  c == ' ' || c == '\t' || c == '\n' || c == '\r' || c == '\x0b' || c == '\x0c'

/-- Python `s.strip()`: drop leading and trailing whitespace. -/
def pyStrip (s : String) : String :=
  String.mk (((s.data.dropWhile isPyWs).reverse.dropWhile isPyWs).reverse)

/-- Whether `pat` occurs as a contiguous sublist of `l`. -/
def containsSubAux (pat : List Char) : List Char → Bool
  | [] => pat.isPrefixOf ([] : List Char)
  | c :: cs => pat.isPrefixOf (c :: cs) || containsSubAux pat cs

/-- Python `pat in s` for strings: substring containment. -/
def pyIn (pat s : String) : Bool :=
  containsSubAux pat.data s.data

/-- Python `s.lower()` restricted to ASCII letters, as used to speak about
cased variants of the keywords. -/
def pyLower (s : String) : String :=
  String.mk (s.data.map (fun c =>
    if 65 ≤ c.toNat ∧ c.toNat ≤ 90 then Char.ofNat (c.toNat + 32) else c))

/-- Whether a JSON value is the string literal `pat` (Python `==` against a
Python `str`: values of other types never compare equal to a string). -/
def Json.isStrLit (pat : String) : Json → Bool
  | .str s => s == pat
  | _ => false

/-- Python `pat in v` where `pat` is a string: substring test on strings,
membership on lists, key membership on dicts, `TypeError` on anything
else (models the two keyword tests on lines 219 and 238). -/
def pyInOp (pat : String) : Json → Except String Bool
  | .str s => .ok (pyIn pat s)
  | .arr xs => .ok (xs.any (Json.isStrLit pat))
  | .obj kvs => .ok (kvs.any (fun kv => kv.1 == pat))
  | _ => .error "TypeError: argument is not iterable"

/-- Python `query_data.get` of the query field (line 216): field lookup
with the empty string as default on a dict, `AttributeError` on any
non-dict value. -/
def pyGet (qd : Json) : Except String Json :=
  match qd with
  | .obj kvs =>
    match kvs.find? (fun kv => kv.1 == "query") with
    | some kv => .ok kv.2
    | none => .ok (.str "")
  | _ => .error "AttributeError: object has no attribute get"

/-- Value of a list of decimal digit characters. -/
def digitsToNat (l : List Char) : Nat :=
  l.foldl (fun a c => 10 * a + (c.toNat - 48)) 0

/-- Python `int(h)` applied to the `Content-Length` header value (line 211):
`TypeError` when the header is absent (`self.headers[..]` is `None`),
`ValueError` when it is not a decimal integer. -/
def pyIntParse : Option String → Except String Int
  | none => .error "TypeError: int() argument must be a string, not NoneType"
  | some s =>
    let t := pyStrip s
    if t == "" then .error "ValueError: invalid literal for int()"
    else if t.data.all Char.isDigit then .ok (digitsToNat t.data)
    else if t.front == '-' && (t.drop 1).data.all Char.isDigit && t.length > 1 then
      .ok (-(Int.ofNat (digitsToNat (t.drop 1).data)))
    else .error "ValueError: invalid literal for int()"

/-- Result of a `subprocess.run` invocation of the backend. -/
structure ExecResult where
  returncode : Int
  stdout : String
  stderr : String

/-- The Data Backend oracle: maps the argument list given to
`subprocess.run` to the process result. -/
abbrev Backend := List String → ExecResult

/-- The `json.loads` oracle: maps a text to its decoded JSON value, or to
the text of the raised decoding exception. -/
abbrev JLoads := String → Except String Json

/-- An inbound HTTP request as the handler sees it: `self.path`, the
`Content-Length` header value (absent or a string), and the body text that
`self.rfile.read` yields. -/
structure Req where
  path : String
  contentLength : Option String
  body : String

/-- The response the handler emits: status code, the explicitly sent
headers, and the JSON value written to the body (`none` when no body is
written). -/
structure Resp where
  status : Nat
  headers : List (String × String)
  body : Option Json

/-- Argument list of the users query (lines 220-223). -/
def usersArgv : List String :=
  ["psql", "codegen_backend_test", "-t", "-c",
   "SELECT json_agg(row_to_json(users)) FROM users;"]

/-- Argument list of the posts query (lines 239-250), with the exact
triple-quoted SQL text of the source. -/
def postsArgv : List String :=
  ["psql", "codegen_backend_test", "-t", "-c",
   "SELECT json_agg(\n" ++
   "                            json_build_object(\n" ++
   "                                \x27id\x27, p.id,\n" ++
   "                                \x27title\x27, p.title,\n" ++
   "                                \x27content\x27, p.content,\n" ++
   "                                \x27published\x27, p.published,\n" ++
   "                                \x27author\x27, json_build_object(\x27name\x27, u.name, \x27email\x27, u.email)\n" ++
   "                            )\n" ++
   "                        ) FROM posts p JOIN users u ON p.author_id = u.id WHERE p.published = true;"]

/-- The errors body carrying a single message object. -/
def errsJson (msg : String) : Json :=
  .obj [("errors", .arr [.obj [("message", .str msg)]])]

/-- The data body carrying a single field. -/
def dataJson (field : String) (v : Json) : Json :=
  .obj [("data", .obj [(field, v)])]

/-- One keyword branch of the resolver (lines 220-236 for `users`, lines
239-263 for `posts`; the two are the same code with `field`/`argv`
instantiated): run the template query, and on success decode the stripped
stdout unless it is empty or the token `null`. -/
def runTemplate (field : String) (argv : List String) (b : Backend)
    (jl : JLoads) : Except String Json :=
  let r := b argv
  if r.returncode == 0 then
    let s := pyStrip r.stdout
    if s != "" && s != "null" then
      match jl s with
      | .error e => .error e
      | .ok v => .ok (dataJson field v)
    else .ok (dataJson field (.arr []))
  else .ok (errsJson "Database query failed")

/-- The keyword dispatch (lines 218-266): test the substring users in
the query, then the substring posts, else the Unknown query error. -/
def resolve (q : Json) (b : Backend) (jl : JLoads) : Except String Json :=
  match pyInOp "users" q with
  | .error e => .error e
  | .ok true => runTemplate "users" usersArgv b jl
  | .ok false =>
    match pyInOp "posts" q with
    | .error e => .error e
    | .ok true => runTemplate "posts" postsArgv b jl
    | .ok false => .ok (errsJson "Unknown query")

/-- The body of the `try` block (lines 214-266): parse the posted body,
extract the `query` field, resolve.  An `Except.error` is a raised
exception, caught by the handler below. -/
def tryBlock (body : String) (b : Backend) (jl : JLoads) : Except String Json :=
  match jl body with
  | .error e => .error e
  | .ok qd =>
    match pyGet qd with
    | .error e => .error e
    | .ok q => resolve q b jl

/-- Headers sent on the normal response path (lines 269-270). -/
def okHdrs : List (String × String) :=
  [("Content-type", "application/json"), ("Access-Control-Allow-Origin", "*")]

/-- Header sent on the exception path (line 276). -/
def errHdrs : List (String × String) :=
  [("Content-type", "application/json")]

/-- `GraphQLHandler.do_POST` (lines 209-282).  The result is `Except.error`
when an exception escapes the handler: the only statement outside both the
path check and the `try` block is `int(self.headers[..])` on line 211. -/
def do_POST (req : Req) (b : Backend) (jl : JLoads) : Except String Resp :=
  if req.path == "/graphql" then
    match pyIntParse req.contentLength with
    | .error e => .error e
    | .ok _ =>
      .ok (match tryBlock req.body b jl with
        | .ok v => ⟨200, okHdrs, some v⟩
        | .error e => ⟨500, errHdrs, some (errsJson e)⟩)
  else .ok ⟨404, [], none⟩

/-- `GraphQLHandler.do_OPTIONS` (lines 284-289): a static 200 with CORS
headers and no body; the request (in particular its path) is never
inspected. -/
def do_OPTIONS (_req : Req) : Resp :=
  ⟨200,
   [("Access-Control-Allow-Origin", "*"),
    ("Access-Control-Allow-Methods", "POST, OPTIONS"),
    ("Access-Control-Allow-Headers", "Content-Type")],
   none⟩

/-- The argument list the dispatch selects for a given query string:
the static template of the first matching keyword, none when no keyword
matches. -/
def selectedArgv (q : String) : Option (List String) :=
  if pyIn "users" q then some usersArgv
  else if pyIn "posts" q then some postsArgv
  else none

/-- Handling a list of requests in sequence: the handler keeps no state, so
this is a plain map. -/
def handleSeq (reqs : List Req) (b : Backend) (jl : JLoads) :
    List (Except String Resp) :=
  reqs.map (fun r => do_POST r b jl)

/-- Whether a JSON value is an array. -/
def Json.isArr : Json → Bool
  | .arr _ => true
  | _ => false

/-- An object holding exactly a message string. -/
def isMsgObj : Json → Bool
  | .obj [("message", .str _)] => true
  | _ => false

/-- Shape of every body the POST handler writes: a single-key object,
either `data` holding one field named `users` or `posts`, or `errors`
holding a non-empty array of message objects. -/
def wfBody : Json → Bool
  | .obj [("data", .obj [(f, _)])] => f == "users" || f == "posts"
  | .obj [("errors", .arr es)] => !es.isEmpty && es.all isMsgObj
  | _ => false

/-- The name of the single field under `data` in a response body, when the
body has that shape. -/
def dataField (r : Resp) : Option String :=
  match r.body with
  | some (.obj [("data", .obj [(f, _)])]) => some f
  | _ => none

/-! Concrete fixtures used to instantiate the theorems below. -/

/-- A concrete `json.loads` oracle for witnesses: a handful of recognised
texts, everything else raising a decode error. -/
def jlFix : JLoads := fun s =>
  if s == "ub" then .ok (.obj [("query", .str "q users x")])
  else if s == "ub2" then .ok (.obj [("query", .str "another users query")])
  else if s == "pb" then .ok (.obj [("query", .str "q posts x")])
  else if s == "bb" then .ok (.obj [("query", .str "q users posts")])
  else if s == "nb" then .ok (.obj [("query", .str "q nothing")])
  else if s == "cb" then .ok (.obj [("query", .str "q USERS POSTS")])
  else if s == "[2]" then .ok (.arr [.num 2])
  else if s == "42" then .ok (.num 42)
  else .error "Expecting value: line 1 column 1 (char 0)"

/-- A concrete backend that answers both templates with exit code 0 and
stdout ` [2] `. -/
def bFix : Backend := fun argv =>
  if argv == usersArgv then ⟨0, " [2] ", ""⟩
  else if argv == postsArgv then ⟨0, " [2] ", ""⟩
  else ⟨1, "", ""⟩

/-- A concrete backend that fails every invocation with exit code 2. -/
def bFail : Backend := fun _ => ⟨2, "", "psql: connection refused"⟩

/-- A concrete backend that answers every invocation with stdout `42`. -/
def b42 : Backend := fun _ => ⟨0, "42", ""⟩

/-- A concrete backend agreeing with `bFix` on the users template in exit
code and stdout but differing in stderr and on other argument lists. -/
def bAlt : Backend := fun argv =>
  if argv == usersArgv then ⟨0, " [2] ", "noisy stderr"⟩
  else ⟨3, "zz", "ww"⟩

/-! Helper lemmas. -/

/-- On the endpoint path with a parsable Content-Length, `do_POST` is the
caught `try` block. -/
theorem do_POST_entry (req : Req) (b : Backend) (jl : JLoads) (n : Int)
    (hpath : req.path = "/graphql")
    (hclen : pyIntParse req.contentLength = Except.ok n) :
    do_POST req b jl =
      Except.ok (match tryBlock req.body b jl with
        | .ok v => ⟨200, okHdrs, some v⟩
        | .error e => ⟨500, errHdrs, some (errsJson e)⟩) := by
  simp [do_POST, hpath, hclen]

/-- A parsed body with a `query` field reduces the `try` block to the
keyword dispatch. -/
theorem tryBlock_parsed (body : String) (b : Backend) (jl : JLoads)
    (j qv : Json) (hbody : jl body = Except.ok j)
    (hq : pyGet j = Except.ok qv) :
    tryBlock body b jl = resolve qv b jl := by
  simp [tryBlock, hbody, hq]

/-- A string query containing `users` takes the users branch. -/
theorem resolve_users (q : String) (b : Backend) (jl : JLoads)
    (hu : pyIn "users" q = true) :
    resolve (.str q) b jl = runTemplate "users" usersArgv b jl := by
  simp [resolve, pyInOp, hu]

/-- A string query without `users` but with `posts` takes the posts
branch. -/
theorem resolve_posts (q : String) (b : Backend) (jl : JLoads)
    (hu : pyIn "users" q = false) (hp : pyIn "posts" q = true) :
    resolve (.str q) b jl = runTemplate "posts" postsArgv b jl := by
  simp [resolve, pyInOp, hu, hp]

/-- A string query with neither keyword resolves to the Unknown query
error. -/
theorem resolve_unknown (q : String) (b : Backend) (jl : JLoads)
    (hu : pyIn "users" q = false) (hp : pyIn "posts" q = false) :
    resolve (.str q) b jl = .ok (errsJson "Unknown query") := by
  simp [resolve, pyInOp, hu, hp]

/-- `runTemplate` reads only the exit code and stdout of its own argument
list. -/
theorem runTemplate_congr (field : String) (argv : List String)
    (b b2 : Backend) (jl : JLoads)
    (hrc : (b2 argv).returncode = (b argv).returncode)
    (hout : (b2 argv).stdout = (b argv).stdout) :
    runTemplate field argv b2 jl = runTemplate field argv b jl := by
  simp [runTemplate, hrc, hout]

/-- `do_POST` on a body whose query is the string `q` reads the backend
only at the argument list `selectedArgv q` selects, and only its exit code
and stdout. -/
theorem do_POST_factor (req : Req) (b b2 : Backend) (jl : JLoads)
    (j : Json) (q : String)
    (hbody : jl req.body = Except.ok j)
    (hq : pyGet j = Except.ok (.str q))
    (h : ∀ a, selectedArgv q = some a →
      (b2 a).returncode = (b a).returncode ∧ (b2 a).stdout = (b a).stdout) :
    do_POST req b2 jl = do_POST req b jl := by
  have hres : resolve (.str q) b2 jl = resolve (.str q) b jl := by
    by_cases hu : pyIn "users" q = true
    · have hsel : selectedArgv q = some usersArgv := by simp [selectedArgv, hu]
      obtain ⟨h1, h2⟩ := h usersArgv hsel
      rw [resolve_users q b2 jl hu, resolve_users q b jl hu,
        runTemplate_congr "users" usersArgv b b2 jl h1 h2]
    · rw [Bool.not_eq_true] at hu
      by_cases hp : pyIn "posts" q = true
      · have hsel : selectedArgv q = some postsArgv := by
          simp [selectedArgv, hu, hp]
        obtain ⟨h1, h2⟩ := h postsArgv hsel
        rw [resolve_posts q b2 jl hu hp, resolve_posts q b jl hu hp,
          runTemplate_congr "posts" postsArgv b b2 jl h1 h2]
      · rw [Bool.not_eq_true] at hp
        rw [resolve_unknown q b2 jl hu hp, resolve_unknown q b jl hu hp]
  have htb : tryBlock req.body b2 jl = tryBlock req.body b jl := by
    rw [tryBlock_parsed req.body b2 jl j (.str q) hbody hq,
      tryBlock_parsed req.body b jl j (.str q) hbody hq, hres]
  unfold do_POST
  rw [htb]

/-- `do_POST` never reads the stderr of any backend invocation. -/
theorem do_POST_stderr_congr (req : Req) (b b2 : Backend) (jl : JLoads)
    (h : ∀ a, (b2 a).returncode = (b a).returncode ∧
      (b2 a).stdout = (b a).stdout) :
    do_POST req b2 jl = do_POST req b jl := by
  have htb : tryBlock req.body b2 jl = tryBlock req.body b jl := by
    cases hjl : jl req.body with
    | error e => simp [tryBlock, hjl]
    | ok qd =>
      cases hg : pyGet qd with
      | error e => simp [tryBlock, hjl, hg]
      | ok qv =>
        simp only [tryBlock, hjl, hg]
        cases hu : pyInOp "users" qv with
        | error e => simp [resolve, hu]
        | ok bu =>
          cases bu with
          | true =>
            simp only [resolve, hu]
            exact runTemplate_congr "users" usersArgv b b2 jl
              (h usersArgv).1 (h usersArgv).2
          | false =>
            cases hp : pyInOp "posts" qv with
            | error e => simp [resolve, hu, hp]
            | ok bp =>
              cases bp with
              | true =>
                simp only [resolve, hu, hp]
                exact runTemplate_congr "posts" postsArgv b b2 jl
                  (h postsArgv).1 (h postsArgv).2
              | false => simp [resolve, hu, hp]
  unfold do_POST
  rw [htb]

/-- An errors body is well-formed. -/
theorem wfBody_errs (msg : String) : wfBody (errsJson msg) = true := rfl

/-- A data body with field `users` or `posts` is well-formed. -/
theorem wfBody_data (f : String) (v : Json)
    (hf : f = "users" ∨ f = "posts") : wfBody (dataJson f v) = true := by
  rcases hf with hf | hf <;> subst hf <;> rfl

/-- Every success of `runTemplate` at field `users` or `posts` is a
well-formed body. -/
theorem runTemplate_wf (field : String) (argv : List String) (b : Backend)
    (jl : JLoads) (v : Json) (hf : field = "users" ∨ field = "posts")
    (h : runTemplate field argv b jl = Except.ok v) : wfBody v = true := by
  simp only [runTemplate] at h
  split at h
  · split at h
    · cases hjl : jl (pyStrip (b argv).stdout) with
      | error e => rw [hjl] at h; exact absurd h (by simp)
      | ok w =>
        rw [hjl] at h
        cases h
        exact wfBody_data field w hf
    · cases h
      exact wfBody_data field (.arr []) hf
  · cases h
    exact wfBody_errs "Database query failed"

/-- Every success of the `try` block is a well-formed body. -/
theorem tryBlock_wf (body : String) (b : Backend) (jl : JLoads) (v : Json)
    (h : tryBlock body b jl = Except.ok v) : wfBody v = true := by
  cases hjl : jl body with
  | error e => simp [tryBlock, hjl] at h
  | ok qd =>
    cases hg : pyGet qd with
    | error e => simp [tryBlock, hjl, hg] at h
    | ok qv =>
      simp only [tryBlock, hjl, hg] at h
      cases hu : pyInOp "users" qv with
      | error e => simp [resolve, hu] at h
      | ok bu =>
        simp only [resolve, hu] at h
        cases bu with
        | true => exact runTemplate_wf "users" usersArgv b jl v (Or.inl rfl) h
        | false =>
          cases hp : pyInOp "posts" qv with
          | error e => simp [hp] at h
          | ok bp =>
            simp only [hp] at h
            cases bp with
            | true =>
              exact runTemplate_wf "posts" postsArgv b jl v (Or.inr rfl) h
            | false => cases h; exact wfBody_errs "Unknown query"

/-! Claim theorems. -/

/-- C1: a POST to the endpoint whose body parses as JSON and whose query
contains `users` and not `posts` yields HTTP 200 with body
`data.users R`, where R is the JSON-decoded stripped stdout of the users
template query when the backend exits 0 with non-empty, non-`null` output,
and R is the empty list when the stripped stdout is empty or `null`. -/
theorem users_query_success (req : Req) (b : Backend) (jl : JLoads)
    (n : Int) (j : Json) (q : String)
    (hpath : req.path = "/graphql")
    (hclen : pyIntParse req.contentLength = Except.ok n)
    (hbody : jl req.body = Except.ok j)
    (hq : pyGet j = Except.ok (.str q))
    (hu : pyIn "users" q = true)
    (_hnp : pyIn "posts" q = false)
    (hrc : (b usersArgv).returncode = 0) :
    (∀ R : Json, pyStrip (b usersArgv).stdout ≠ "" →
      pyStrip (b usersArgv).stdout ≠ "null" →
      jl (pyStrip (b usersArgv).stdout) = Except.ok R →
      do_POST req b jl = Except.ok ⟨200, okHdrs, some (dataJson "users" R)⟩)
    ∧ ((pyStrip (b usersArgv).stdout = "" ∨ pyStrip (b usersArgv).stdout = "null") →
      do_POST req b jl =
        Except.ok ⟨200, okHdrs, some (dataJson "users" (.arr []))⟩) := by
  constructor
  · intro R h1 h2 h3
    have hrt : runTemplate "users" usersArgv b jl = Except.ok (dataJson "users" R) := by
      simp [runTemplate, hrc, h1, h2, h3]
    rw [do_POST_entry req b jl n hpath hclen,
      tryBlock_parsed req.body b jl j (.str q) hbody hq,
      resolve_users q b jl hu, hrt]
  · intro hempty
    have hrt : runTemplate "users" usersArgv b jl =
        Except.ok (dataJson "users" (.arr [])) := by
      rcases hempty with he | he <;> simp [runTemplate, hrc, he]
    rw [do_POST_entry req b jl n hpath hclen,
      tryBlock_parsed req.body b jl j (.str q) hbody hq,
      resolve_users q b jl hu, hrt]

/-- Witness for `users_query_success` at concrete inputs. -/
theorem users_query_success_witness :
    do_POST ⟨"/graphql", some "17", "ub"⟩ bFix jlFix =
      Except.ok ⟨200, okHdrs, some (dataJson "users" (.arr [.num 2]))⟩ :=
  (users_query_success ⟨"/graphql", some "17", "ub"⟩ bFix jlFix 17
    (.obj [("query", .str "q users x")]) "q users x"
    rfl rfl rfl rfl (by decide) (by decide) rfl).1
    (.arr [.num 2]) (by decide) (by decide) rfl

/-- C2 counterexample: the body `bb` parses to a query containing both
`posts` and `users`; the handler answers with the users field, not the
posts field, so the posts path is not taken when `users` also occurs. -/
theorem posts_priority_counterexample :
    do_POST ⟨"/graphql", some "17", "bb"⟩ bFix jlFix =
      Except.ok ⟨200, okHdrs, some (dataJson "users" (.arr [.num 2]))⟩
    ∧ dataField ⟨200, okHdrs, some (dataJson "users" (.arr [.num 2]))⟩ =
        some "users"
    ∧ (some "users" : Option String) ≠ some "posts" :=
  ⟨rfl, rfl, by decide⟩

/-- C2 (amended): a POST to the endpoint whose body parses as JSON and
whose query contains `posts` but not `users` yields HTTP 200 with body
`data.posts R` analogously; a query containing both keywords takes the
users branch, which is tested first. -/
theorem posts_query_success (req : Req) (b : Backend) (jl : JLoads)
    (n : Int) (j : Json) (q : String)
    (hpath : req.path = "/graphql")
    (hclen : pyIntParse req.contentLength = Except.ok n)
    (hbody : jl req.body = Except.ok j)
    (hq : pyGet j = Except.ok (.str q))
    (hnu : pyIn "users" q = false)
    (hp : pyIn "posts" q = true)
    (hrc : (b postsArgv).returncode = 0) :
    (∀ R : Json, pyStrip (b postsArgv).stdout ≠ "" →
      pyStrip (b postsArgv).stdout ≠ "null" →
      jl (pyStrip (b postsArgv).stdout) = Except.ok R →
      do_POST req b jl = Except.ok ⟨200, okHdrs, some (dataJson "posts" R)⟩)
    ∧ ((pyStrip (b postsArgv).stdout = "" ∨ pyStrip (b postsArgv).stdout = "null") →
      do_POST req b jl =
        Except.ok ⟨200, okHdrs, some (dataJson "posts" (.arr []))⟩) := by
  constructor
  · intro R h1 h2 h3
    have hrt : runTemplate "posts" postsArgv b jl = Except.ok (dataJson "posts" R) := by
      simp [runTemplate, hrc, h1, h2, h3]
    rw [do_POST_entry req b jl n hpath hclen,
      tryBlock_parsed req.body b jl j (.str q) hbody hq,
      resolve_posts q b jl hnu hp, hrt]
  · intro hempty
    have hrt : runTemplate "posts" postsArgv b jl =
        Except.ok (dataJson "posts" (.arr [])) := by
      rcases hempty with he | he <;> simp [runTemplate, hrc, he]
    rw [do_POST_entry req b jl n hpath hclen,
      tryBlock_parsed req.body b jl j (.str q) hbody hq,
      resolve_posts q b jl hnu hp, hrt]

/-- Witness for `posts_query_success` at concrete inputs. -/
theorem posts_query_success_witness :
    do_POST ⟨"/graphql", some "17", "pb"⟩ bFix jlFix =
      Except.ok ⟨200, okHdrs, some (dataJson "posts" (.arr [.num 2]))⟩ :=
  (posts_query_success ⟨"/graphql", some "17", "pb"⟩ bFix jlFix 17
    (.obj [("query", .str "q posts x")]) "q posts x"
    rfl rfl rfl rfl (by decide) (by decide) rfl).1
    (.arr [.num 2]) (by decide) (by decide) rfl

/-- C3 counterexample: an OPTIONS request to a path other than the
endpoint is answered with status 200 and not 404, because `do_OPTIONS`
never inspects the path. -/
theorem options_wrong_path_counterexample :
    (do_OPTIONS ⟨"/not-the-endpoint", none, ""⟩).status = 200
    ∧ (200 : Nat) ≠ 404 :=
  ⟨rfl, by decide⟩

/-- C3 (amended): a POST request to a path other than the endpoint is
answered 404 with empty body; an OPTIONS request is answered 200 with the
static CORS headers and empty body regardless of its path. -/
theorem wrong_path_handling :
    (∀ (req : Req) (b : Backend) (jl : JLoads), req.path ≠ "/graphql" →
      do_POST req b jl = Except.ok ⟨404, [], none⟩)
    ∧ (∀ req : Req, do_OPTIONS req =
        ⟨200,
         [("Access-Control-Allow-Origin", "*"),
          ("Access-Control-Allow-Methods", "POST, OPTIONS"),
          ("Access-Control-Allow-Headers", "Content-Type")],
         none⟩) := by
  constructor
  · intro req b jl h
    have hb : (req.path == "/graphql") = false := beq_eq_false_iff_ne.mpr h
    simp [do_POST, hb]
  · intro req
    rfl

/-- Witness for `wrong_path_handling` at concrete inputs. -/
theorem wrong_path_handling_witness :
    do_POST ⟨"/bad", some "17", "ub"⟩ bFix jlFix =
      Except.ok ⟨404, [], none⟩ :=
  wrong_path_handling.1 ⟨"/bad", some "17", "ub"⟩ bFix jlFix (by decide)

/-- C4 counterexample: a POST to the endpoint with no Content-Length
header raises `int(None)` on line 211, outside the `try` block, so the
exception escapes the handler and no response is produced. -/
theorem missing_content_length_counterexample :
    do_POST ⟨"/graphql", none, "ub"⟩ bFix jlFix =
      Except.error "TypeError: int() argument must be a string, not NoneType" :=
  rfl

/-- C4 (amended): for every POST to the endpoint whose Content-Length
header is present and parses as an integer, the handler returns exactly
one response; a body that is not valid JSON, and a backend stdout that
fails JSON decoding, are caught and turned into an HTTP 500 response whose
body is an errors array carrying the exception text. -/
theorem handler_catches_failures (req : Req) (b : Backend) (jl : JLoads)
    (n : Int) (hpath : req.path = "/graphql")
    (hclen : pyIntParse req.contentLength = Except.ok n) :
    (∃ r : Resp, do_POST req b jl = Except.ok r)
    ∧ (∀ e, jl req.body = Except.error e →
        do_POST req b jl = Except.ok ⟨500, errHdrs, some (errsJson e)⟩)
    ∧ (∀ (j : Json) (q : String) (e : String),
        jl req.body = Except.ok j → pyGet j = Except.ok (.str q) →
        pyIn "users" q = true → (b usersArgv).returncode = 0 →
        pyStrip (b usersArgv).stdout ≠ "" →
        pyStrip (b usersArgv).stdout ≠ "null" →
        jl (pyStrip (b usersArgv).stdout) = Except.error e →
        do_POST req b jl = Except.ok ⟨500, errHdrs, some (errsJson e)⟩) := by
  refine ⟨?_, ?_, ?_⟩
  · rw [do_POST_entry req b jl n hpath hclen]
    exact ⟨_, rfl⟩
  · intro e he
    have htb : tryBlock req.body b jl = Except.error e := by
      simp [tryBlock, he]
    rw [do_POST_entry req b jl n hpath hclen, htb]
  · intro j q e hbody hq hu hrc h1 h2 hdec
    have hrt : runTemplate "users" usersArgv b jl = Except.error e := by
      simp [runTemplate, hrc, h1, h2, hdec]
    have htb : tryBlock req.body b jl = Except.error e := by
      rw [tryBlock_parsed req.body b jl j (.str q) hbody hq,
        resolve_users q b jl hu, hrt]
    rw [do_POST_entry req b jl n hpath hclen, htb]

/-- Witness for `handler_catches_failures` at concrete inputs: the body
`zz` does not parse and yields the 500 errors response. -/
theorem handler_catches_failures_witness :
    do_POST ⟨"/graphql", some "17", "zz"⟩ bFix jlFix =
      Except.ok ⟨500, errHdrs,
        some (errsJson "Expecting value: line 1 column 1 (char 0)")⟩ :=
  (handler_catches_failures ⟨"/graphql", some "17", "zz"⟩ bFix jlFix 17
    rfl rfl).2.1 "Expecting value: line 1 column 1 (char 0)" rfl

/-- C5: when the matched template query exits non-zero, the handler
answers HTTP 200 with exactly the Database query failed errors body, and
the response never depends on the stderr of the backend. -/
theorem backend_failure_soft_error (req : Req) (b : Backend) (jl : JLoads)
    (n : Int) (j : Json) (q : String)
    (hpath : req.path = "/graphql")
    (hclen : pyIntParse req.contentLength = Except.ok n)
    (hbody : jl req.body = Except.ok j)
    (hq : pyGet j = Except.ok (.str q)) :
    (pyIn "users" q = true → (b usersArgv).returncode ≠ 0 →
      do_POST req b jl =
        Except.ok ⟨200, okHdrs, some (errsJson "Database query failed")⟩)
    ∧ (pyIn "users" q = false → pyIn "posts" q = true →
      (b postsArgv).returncode ≠ 0 →
      do_POST req b jl =
        Except.ok ⟨200, okHdrs, some (errsJson "Database query failed")⟩)
    ∧ (∀ b2 : Backend,
      (∀ a, (b2 a).returncode = (b a).returncode ∧
        (b2 a).stdout = (b a).stdout) →
      do_POST req b2 jl = do_POST req b jl) := by
  refine ⟨?_, ?_, ?_⟩
  · intro hu hrc
    have hrt : runTemplate "users" usersArgv b jl =
        Except.ok (errsJson "Database query failed") := by
      simp [runTemplate, hrc]
    rw [do_POST_entry req b jl n hpath hclen,
      tryBlock_parsed req.body b jl j (.str q) hbody hq,
      resolve_users q b jl hu, hrt]
  · intro hu hp hrc
    have hrt : runTemplate "posts" postsArgv b jl =
        Except.ok (errsJson "Database query failed") := by
      simp [runTemplate, hrc]
    rw [do_POST_entry req b jl n hpath hclen,
      tryBlock_parsed req.body b jl j (.str q) hbody hq,
      resolve_posts q b jl hu hp, hrt]
  · intro b2 hb2
    exact do_POST_stderr_congr req b b2 jl hb2

/-- Witness for `backend_failure_soft_error` at concrete inputs. -/
theorem backend_failure_soft_error_witness :
    do_POST ⟨"/graphql", some "17", "ub"⟩ bFail jlFix =
      Except.ok ⟨200, okHdrs, some (errsJson "Database query failed")⟩ :=
  (backend_failure_soft_error ⟨"/graphql", some "17", "ub"⟩ bFail jlFix 17
    (.obj [("query", .str "q users x")]) "q users x"
    rfl rfl rfl rfl).1 (by decide) (by decide)

/-- C6: a POST to the endpoint whose body parses as JSON and whose query
contains neither keyword yields HTTP 200 with exactly the Unknown query
errors body, and the response is independent of the backend, which is
never invoked. -/
theorem unknown_query_soft_error (req : Req) (b : Backend) (jl : JLoads)
    (n : Int) (j : Json) (q : String)
    (hpath : req.path = "/graphql")
    (hclen : pyIntParse req.contentLength = Except.ok n)
    (hbody : jl req.body = Except.ok j)
    (hq : pyGet j = Except.ok (.str q))
    (hu : pyIn "users" q = false)
    (hp : pyIn "posts" q = false) :
    do_POST req b jl =
      Except.ok ⟨200, okHdrs, some (errsJson "Unknown query")⟩
    ∧ (∀ b2 : Backend, do_POST req b2 jl = do_POST req b jl) := by
  constructor
  · rw [do_POST_entry req b jl n hpath hclen,
      tryBlock_parsed req.body b jl j (.str q) hbody hq,
      resolve_unknown q b jl hu hp]
  · intro b2
    apply do_POST_factor req b b2 jl j q hbody hq
    intro a ha
    have hsel : selectedArgv q = none := by simp [selectedArgv, hu, hp]
    rw [hsel] at ha
    exact absurd ha (by simp)

/-- Witness for `unknown_query_soft_error` at concrete inputs. -/
theorem unknown_query_soft_error_witness :
    do_POST ⟨"/graphql", some "17", "nb"⟩ bFix jlFix =
      Except.ok ⟨200, okHdrs, some (errsJson "Unknown query")⟩ :=
  (unknown_query_soft_error ⟨"/graphql", some "17", "nb"⟩ bFix jlFix 17
    (.obj [("query", .str "q nothing")]) "q nothing"
    rfl rfl rfl rfl (by decide) (by decide)).1

/-- C7: the handler is a deterministic, stateless function of the request
and the backend result: two backends agreeing in exit code and stdout on
the users template yield identical responses to a users request, and
handling a sequence of requests is a plain map, so earlier requests cannot
influence later ones. -/
theorem users_query_idempotent (req : Req) (b b2 : Backend) (jl : JLoads)
    (n : Int) (j : Json) (q : String)
    (_hpath : req.path = "/graphql")
    (_hclen : pyIntParse req.contentLength = Except.ok n)
    (hbody : jl req.body = Except.ok j)
    (hq : pyGet j = Except.ok (.str q))
    (hu : pyIn "users" q = true)
    (hrc : (b2 usersArgv).returncode = (b usersArgv).returncode)
    (hout : (b2 usersArgv).stdout = (b usersArgv).stdout) :
    do_POST req b2 jl = do_POST req b jl
    ∧ (∀ reqs : List Req,
      handleSeq (reqs ++ [req]) b jl =
        handleSeq reqs b jl ++ [do_POST req b jl]) := by
  constructor
  · apply do_POST_factor req b b2 jl j q hbody hq
    intro a ha
    have hsel : selectedArgv q = some usersArgv := by simp [selectedArgv, hu]
    rw [hsel] at ha
    cases ha
    exact ⟨hrc, hout⟩
  · intro reqs
    simp [handleSeq]

/-- Witness for `users_query_idempotent` at concrete inputs. -/
theorem users_query_idempotent_witness :
    do_POST ⟨"/graphql", some "17", "ub"⟩ bAlt jlFix =
      do_POST ⟨"/graphql", some "17", "ub"⟩ bFix jlFix :=
  (users_query_idempotent ⟨"/graphql", some "17", "ub"⟩ bFix bAlt jlFix 17
    (.obj [("query", .str "q users x")]) "q users x"
    rfl rfl rfl rfl (by decide) rfl rfl).1

/-- C8: the selected backend argument list is the static template of the
matched keyword, and the whole response depends on the request body only
through which keyword branch its query selects, so no part of the query
text flows into the backend command. -/
theorem static_template_independence :
    (∀ q : String, pyIn "users" q = true →
      selectedArgv q = some usersArgv)
    ∧ (∀ q : String, pyIn "users" q = false → pyIn "posts" q = true →
      selectedArgv q = some postsArgv)
    ∧ (∀ (req1 req2 : Req) (b : Backend) (jl : JLoads) (n1 n2 : Int)
        (j1 j2 : Json) (q1 q2 : String),
      req1.path = "/graphql" → req2.path = "/graphql" →
      pyIntParse req1.contentLength = Except.ok n1 →
      pyIntParse req2.contentLength = Except.ok n2 →
      jl req1.body = Except.ok j1 → jl req2.body = Except.ok j2 →
      pyGet j1 = Except.ok (.str q1) → pyGet j2 = Except.ok (.str q2) →
      pyIn "users" q1 = pyIn "users" q2 →
      pyIn "posts" q1 = pyIn "posts" q2 →
      do_POST req1 b jl = do_POST req2 b jl) := by
  refine ⟨?_, ?_, ?_⟩
  · intro q hu
    simp [selectedArgv, hu]
  · intro q hu hp
    simp [selectedArgv, hu, hp]
  · intro req1 req2 b jl n1 n2 j1 j2 q1 q2 hpath1 hpath2 hclen1 hclen2
      hbody1 hbody2 hq1 hq2 hus hps
    have hres : resolve (.str q1) b jl = resolve (.str q2) b jl := by
      cases hu1 : pyIn "users" q1 with
      | true =>
        rw [resolve_users q1 b jl hu1,
          resolve_users q2 b jl (hus.symm.trans hu1)]
      | false =>
        cases hp1 : pyIn "posts" q1 with
        | true =>
          rw [resolve_posts q1 b jl hu1 hp1,
            resolve_posts q2 b jl (hus.symm.trans hu1) (hps.symm.trans hp1)]
        | false =>
          rw [resolve_unknown q1 b jl hu1 hp1,
            resolve_unknown q2 b jl (hus.symm.trans hu1) (hps.symm.trans hp1)]
    rw [do_POST_entry req1 b jl n1 hpath1 hclen1,
      do_POST_entry req2 b jl n2 hpath2 hclen2,
      tryBlock_parsed req1.body b jl j1 (.str q1) hbody1 hq1,
      tryBlock_parsed req2.body b jl j2 (.str q2) hbody2 hq2, hres]

/-- Witness for `static_template_independence` at concrete inputs: two
different users queries produce the same response. -/
theorem static_template_independence_witness :
    do_POST ⟨"/graphql", some "17", "ub"⟩ bFix jlFix =
      do_POST ⟨"/graphql", some "18", "ub2"⟩ bFix jlFix :=
  static_template_independence.2.2
    ⟨"/graphql", some "17", "ub"⟩ ⟨"/graphql", some "18", "ub2"⟩ bFix jlFix
    17 18 (.obj [("query", .str "q users x")])
    (.obj [("query", .str "another users query")])
    "q users x" "another users query"
    rfl rfl rfl rfl rfl rfl rfl rfl (by decide) (by decide)

/-- C9 counterexample: when the backend stdout decodes to the number 42,
the handler wraps it unchanged, so the single data field need not map to a
list. -/
theorem data_value_not_list_counterexample :
    do_POST ⟨"/graphql", some "17", "ub"⟩ b42 jlFix =
      Except.ok ⟨200, okHdrs, some (dataJson "users" (.num 42))⟩
    ∧ Json.isArr (.num 42) = false :=
  ⟨rfl, rfl⟩

/-- C9 (amended): every body the POST handler writes for the endpoint is a
JSON object with exactly one top-level key, either data or errors; a data
body maps exactly one field, named users or posts, to the decoded backend
value (a list whenever the backend output decodes to one, which the
handler does not check); an errors body is a non-empty array of objects
each carrying a message string. -/
theorem response_body_shape (req : Req) (b : Backend) (jl : JLoads)
    (r : Resp) (j : Json)
    (h : do_POST req b jl = Except.ok r) (hb : r.body = some j) :
    wfBody j = true := by
  unfold do_POST at h
  split at h
  · cases hcl : pyIntParse req.contentLength with
    | error e => rw [hcl] at h; exact absurd h (by simp)
    | ok m =>
      simp only [hcl] at h
      cases htb : tryBlock req.body b jl with
      | ok v =>
        rw [htb] at h
        cases h
        simp only at hb
        cases hb
        exact tryBlock_wf req.body b jl _ htb
      | error e =>
        rw [htb] at h
        cases h
        simp only at hb
        cases hb
        exact wfBody_errs e
  · cases h
    exact absurd hb (by simp)

/-- Witness for `response_body_shape` at concrete inputs. -/
theorem response_body_shape_witness :
    wfBody (dataJson "users" (.arr [.num 2])) = true :=
  response_body_shape ⟨"/graphql", some "17", "ub"⟩ bFix jlFix
    ⟨200, okHdrs, some (dataJson "users" (.arr [.num 2]))⟩
    (dataJson "users" (.arr [.num 2])) rfl rfl

/-- C10: keyword matching is case sensitive: a query containing a cased
variant of the keywords, but not the exact lowercase substrings, falls
through to the Unknown query errors body. -/
theorem keyword_match_case_sensitive (req : Req) (b : Backend)
    (jl : JLoads) (n : Int) (j : Json) (q : String)
    (hpath : req.path = "/graphql")
    (hclen : pyIntParse req.contentLength = Except.ok n)
    (hbody : jl req.body = Except.ok j)
    (hq : pyGet j = Except.ok (.str q))
    (_hcase : pyIn "users" (pyLower q) = true ∨ pyIn "posts" (pyLower q) = true)
    (hu : pyIn "users" q = false)
    (hp : pyIn "posts" q = false) :
    do_POST req b jl =
      Except.ok ⟨200, okHdrs, some (errsJson "Unknown query")⟩ := by
  rw [do_POST_entry req b jl n hpath hclen,
    tryBlock_parsed req.body b jl j (.str q) hbody hq,
    resolve_unknown q b jl hu hp]

/-- Witness for `keyword_match_case_sensitive` at concrete inputs: the
query text `q USERS POSTS` matches neither keyword. -/
theorem keyword_match_case_sensitive_witness :
    do_POST ⟨"/graphql", some "17", "cb"⟩ bFix jlFix =
      Except.ok ⟨200, okHdrs, some (errsJson "Unknown query")⟩ :=
  keyword_match_case_sensitive ⟨"/graphql", some "17", "cb"⟩ bFix jlFix 17
    (.obj [("query", .str "q USERS POSTS")]) "q USERS POSTS"
    rfl rfl rfl rfl (Or.inl (by decide)) (by decide) (by decide)
